import Mathlib

/-!
Shallow embedding of the Renogy device-reading subsystem of piSolar
(`src/pisolar/sensors/renogy/...`): the Modbus register decoders, the
register map, the retry orchestrator, the Bluetooth attempt flow, and the
reading normalizer, together with theorems checking the specified
properties against these embeddings.
-/

namespace PiSolar

/-- Embeds `_to_signed_8bit` from `modbus_reader.py`: convert an 8-bit
sign+magnitude value to a signed integer.  `if value & 0x80: return
-(value & 0x7F)` else `return value`. -/
def to_signed_8bit (value : Nat) : Int :=
  if value &&& 0x80 ≠ 0 then -((value &&& 0x7F : Nat) : Int)
  else (value : Int)

/-- Embeds `_parse_temperature_register` from `modbus_reader.py`: split a
16-bit register into (controller temperature, battery temperature), each
byte decoded by `to_signed_8bit`.  High byte is `(raw_value >> 8) & 0xFF`,
low byte is `raw_value & 0xFF`. -/
def parse_temperature_register (raw_value : Nat) : Int × Int :=
  (to_signed_8bit ((raw_value >>> 8) &&& 0xFF), to_signed_8bit (raw_value &&& 0xFF))

/-- Embeds the `CHARGING_STATUS` dict lookup `CHARGING_STATUS.get(code,
f"unknown_{code}")` from `modbus_reader.py`. -/
def chargingStatusTable (code : Nat) : String :=
  if code = 0 then "deactivated"
  else if code = 1 then "activated"
  else if code = 2 then "mppt"
  else if code = 3 then "equalizing"
  else if code = 4 then "boost"
  else if code = 5 then "floating"
  else if code = 6 then "current_limiting"
  else "unknown_" ++ toString code

/-- Embeds the status-register decode in `_read_sync`:
`status_code = result.registers[0] & 0xFF` followed by the table lookup. -/
def chargingStatusOf (registerValue : Nat) : String :=
  chargingStatusTable (registerValue &&& 0xFF)

/-- A raw field value as stored in the output dict of a reader: Python ints and
floats are embedded as rationals, strings as strings. -/
inductive FieldValue where
  | num (q : ℚ)
  | str (s : String)
deriving DecidableEq, Repr

/-- Embeds Python `round(value, 2)` on the exact (rational) value: round the
value to 2 decimal places.  (All values this is applied to in the reader
have denominator dividing 100, so no tie-breaking case is ever exercised.) -/
def round2 (q : ℚ) : ℚ :=
  ((round (q * 100) : ℤ) : ℚ) / 100

/-- One entry of the static Modbus register map: address, field name, scale
factor, whether the scale factor is a Python float (`isinstance(scale_factor,
float)`), and the unit description. -/
structure RegisterEntry where
  addr : Nat
  fieldName : String
  scale : ℚ
  scaleIsFloat : Bool
  descr : String
deriving DecidableEq, Repr

/-- Embeds `REGISTER_MAP` from `modbus_reader.py` (addresses 0x0100-0x0114,
excluding the special temperature register 0x0103). -/
def REGISTER_MAP : List RegisterEntry :=
  [ ⟨0x0100, "battery_percentage", 1, false, "Battery SOC percent"⟩,
    ⟨0x0101, "battery_voltage", 1/10, true, "Battery voltage V"⟩,
    ⟨0x0102, "battery_current", 1/100, true, "Charging current A"⟩,
    ⟨0x0104, "load_voltage", 1/10, true, "Street light (load) voltage V"⟩,
    ⟨0x0105, "load_current", 1/100, true, "Street light (load) current A"⟩,
    ⟨0x0106, "load_power", 1, false, "Street light (load) power W"⟩,
    ⟨0x0107, "pv_voltage", 1/10, true, "Solar panel voltage V"⟩,
    ⟨0x0108, "pv_current", 1/100, true, "Solar panel current A"⟩,
    ⟨0x0109, "pv_power", 1, false, "Charging power W"⟩,
    ⟨0x010B, "battery_min_voltage_today", 1/10, true, "Battery min voltage today V"⟩,
    ⟨0x010C, "battery_max_voltage_today", 1/10, true, "Battery max voltage today V"⟩,
    ⟨0x010D, "max_charging_current_today", 1/100, true, "Max charging current today A"⟩,
    ⟨0x010E, "max_discharging_current_today", 1/100, true, "Max discharging current today A"⟩,
    ⟨0x010F, "max_charging_power_today", 1, false, "Max charging power today W"⟩,
    ⟨0x0110, "max_discharging_power_today", 1, false, "Max discharging power today W"⟩,
    ⟨0x0111, "charging_amp_hours_today", 1, false, "Charging Ah today"⟩,
    ⟨0x0112, "discharging_amp_hours_today", 1, false, "Discharging Ah today"⟩,
    ⟨0x0113, "power_generation_today", 1/10, true, "Power generation today Wh"⟩,
    ⟨0x0114, "power_consumption_today", 1/10, true, "Power consumption today Wh"⟩ ]

/-- Combined temperature register address (`TEMPERATURE_REGISTER`). -/
def TEMPERATURE_REGISTER : Nat := 0x0103

/-- Charging status register address (`STATUS_REGISTER`). -/
def STATUS_REGISTER : Nat := 0x0120

/-- Embeds the per-register scaling in `_read_sync`:
`value = raw_value * scale_factor` followed by `value = round(value, 2)`
when the scale factor is a Python float. -/
def decodeValue (scale : ℚ) (scaleIsFloat : Bool) (raw : Nat) : ℚ :=
  let value : ℚ := (raw : ℚ) * scale
  if scaleIsFloat then round2 value else value

/-- Outcome of one Modbus `client.read_holding_registers` call: either the
16-bit register value, or an error (covering both `result.isError()` and a
raised exception, which `_read_sync` treats alike for data registers). -/
abbrev RegisterOutcome := Except Unit Nat

/-- The environment one synchronous Modbus attempt runs against: whether
`client.connect()` succeeds, the per-address register read outcome, and the
timing values that go into the metadata entries. -/
structure ModbusEnv where
  connectOk : Bool
  regValue : Nat → RegisterOutcome
  deviceName : String
  connectMs : ℚ
  totalMs : ℚ

/-- Error kinds a single Modbus attempt can fail with (spec taxonomy):
connection failure, or no readable data. -/
inductive ModbusAttemptError where
  | connectFailed
  | noData
deriving DecidableEq, Repr

/-- Embeds the main register loop of `_read_sync`: for each entry of the
static map, a successful read appends the scaled field, an error increments
the error counter and skips the field.  Returns the data fields in map
order together with the error count. -/
def processRegisters (env : ModbusEnv) : List RegisterEntry → List (String × FieldValue) × Nat
  | [] => ([], 0)
  | e :: rest =>
    let prev := processRegisters env rest
    match env.regValue e.addr with
    | .ok raw =>
      ((e.fieldName, FieldValue.num (decodeValue e.scale e.scaleIsFloat raw)) :: prev.1, prev.2)
    | .error _ => (prev.1, prev.2 + 1)

/-- Embeds the data-field portion of `_read_sync` after the register loop:
the combined temperature register (error increments the counter) and the
charging status register (error is silently ignored). -/
def modbusDataFields (env : ModbusEnv) : List (String × FieldValue) × Nat :=
  let base := processRegisters env REGISTER_MAP
  let afterTemp :=
    match env.regValue TEMPERATURE_REGISTER with
    | .ok raw =>
      (base.1 ++
        [ ("controller_temperature", FieldValue.num ((parse_temperature_register raw).1 : ℚ)),
          ("battery_temperature", FieldValue.num ((parse_temperature_register raw).2 : ℚ)) ],
       base.2)
    | .error _ => (base.1, base.2 + 1)
  match env.regValue STATUS_REGISTER with
  | .ok raw =>
    (afterTemp.1 ++ [("charging_status", FieldValue.str (chargingStatusOf raw))], afterTemp.2)
  | .error _ => afterTemp

/-- The four metadata entries `_read_sync` appends to the data dict
(`__device`, `__client`, `__connect_ms`, `__total_ms`). -/
def modbusMetadata (env : ModbusEnv) : List (String × FieldValue) :=
  [ ("__device", .str env.deviceName),
    ("__client", .str "ModbusReader"),
    ("__connect_ms", .num env.connectMs),
    ("__total_ms", .num env.totalMs) ]

/-- Embeds one whole synchronous Modbus attempt (`_read_sync`): connect
failure is fatal; per-register errors are absorbed; metadata is appended;
and if the dict holds at most the 4 metadata entries (`len(data) <= 4`) the
attempt fails with the no-data error. -/
def readSync (env : ModbusEnv) : Except ModbusAttemptError (List (String × FieldValue)) :=
  if ¬ env.connectOk then .error .connectFailed
  else
    let data := (modbusDataFields env).1 ++ modbusMetadata env
    if data.length ≤ 4 then .error .noData
    else .ok data

/-- The error counter value of one Modbus attempt (the `read_errors`
variable of `_read_sync` at the end of the data-field phase). -/
def readErrorCount (env : ModbusEnv) : Nat :=
  (modbusDataFields env).2

/-- Whether one register read outcome is an error (`result.isError()` or a
raised exception). -/
def regReadFailed : RegisterOutcome → Bool
  | .ok _ => false
  | .error _ => true

/-- A Modbus environment in which the connection succeeds but every
register read errors (used as a concrete evaluation point). -/
def envAllError : ModbusEnv :=
  ⟨true, fun _ => .error (), "Renogy", 0, 0⟩

/-! ### Retry orchestrator (`RenogyReader.read` in `reader.py`)

The same `for attempt in range(1, max_retries + 1)` loop, with a sleep
between attempts when `attempt < max_retries` and a final terminal error
wrapping `last_error` (initialized to `None`), also appears verbatim in
`ModbusReader.read` and `BluetoothReader.read`.  The sequence of
single-attempt outcomes of a reader is modelled as a function from the 0-based attempt
index to an `Except` value. -/

/-- Result of the retried `read`: either the value of the successful attempt, or
the terminal exhaustion error (`RuntimeError` wrapping `last_error`).  Both
carry how many attempts were made and how many inter-attempt delay sleeps
elapsed. -/
inductive ReadResult (Val Err : Type) where
  | success (value : Val) (attempts : Nat) (sleeps : Nat)
  | retriesExhausted (lastError : Option Err) (attempts : Nat) (sleeps : Nat)
deriving DecidableEq, Repr

/-- The body of the retry loop of `RenogyReader.read`: `remaining` attempts
are left out of `total = max_retries`, `attemptsDone` attempts have run,
`sleeps` delays have elapsed, and `last` is the current `last_error`.  A
failing attempt sleeps exactly when its 1-based number is `< total`. -/
def readLoop {Val Err : Type} (outcomes : Nat → Except Err Val) (total : Nat) :
    Nat → Nat → Nat → Option Err → ReadResult Val Err
  | 0, attemptsDone, sleeps, last => .retriesExhausted last attemptsDone sleeps
  | remaining + 1, attemptsDone, sleeps, last =>
    match outcomes attemptsDone with
    | .ok v => .success v (attemptsDone + 1) sleeps
    | .error e =>
      if attemptsDone + 1 < total then
        readLoop outcomes total remaining (attemptsDone + 1) (sleeps + 1) (some e)
      else
        readLoop outcomes total remaining (attemptsDone + 1) sleeps (some e)

/-- Embeds `RenogyReader.read`: run the retry loop for
`range(1, max_retries + 1)`, i.e. `max(max_retries, 0)` attempts, starting
with `last_error = None`.  `max_retries` is a Python `int`, so it is
modelled as an unbounded `Int`. -/
def renogyRead {Val Err : Type} (maxRetries : Int)
    (outcomes : Nat → Except Err Val) : ReadResult Val Err :=
  readLoop outcomes maxRetries.toNat maxRetries.toNat 0 0 none

/-! ### Bluetooth reader (`bluetooth_reader.py`) -/

/-- Error kinds of one Bluetooth attempt (spec taxonomy §7). -/
inductive BtError where
  | noAdapter
  | deviceNotFound
  | readFailed (msg : String)
  | emptyData
deriving DecidableEq, Repr

/-- Result of `BluetoothReader.read`: the adapter-missing `RuntimeError`
raised before the retry loop, or the outcome of the loop.  Attempt and sleep
counters record how much of the retry policy actually ran. -/
inductive BtReadOutcome (Val : Type) where
  | noAdapterError (attempts : Nat) (sleeps : Nat)
  | success (value : Val) (attempts : Nat) (sleeps : Nat)
  | retriesExhausted (lastError : Option BtError) (attempts : Nat) (sleeps : Nat)
deriving DecidableEq, Repr

/-- Number of single attempts that were invoked before this outcome. -/
def BtReadOutcome.attemptCount {Val : Type} : BtReadOutcome Val → Nat
  | .noAdapterError n _ => n
  | .success _ n _ => n
  | .retriesExhausted _ n _ => n

/-- Embeds `BluetoothReader.read`: `_bluetooth_available()` is probed once,
before the retry loop; if it reports no adapter, the `RuntimeError` is
raised immediately (zero attempts, zero sleeps).  Otherwise the same retry
loop as `RenogyReader.read` runs. -/
def bluetoothRead {Val : Type} (adapterAvailable : Bool) (maxRetries : Int)
    (outcomes : Nat → Except BtError Val) : BtReadOutcome Val :=
  if adapterAvailable then
    match renogyRead maxRetries outcomes with
    | .success v n s => .success v n s
    | .retriesExhausted le n s => .retriesExhausted le n s
  else .noAdapterError 0 0

/-- The read result of the renogy-ble library (`result.success`, `result.error`,
`result.parsed_data`) as consumed by `_attempt_read`. -/
structure BleLibResult where
  success : Bool
  error : Option String
  parsedData : List (String × FieldValue)

/-- The environment one Bluetooth attempt runs against: what the BLE scan
finds for the configured MAC address, what a client read of the found
device returns, and the identity/timing metadata values. -/
structure BtAttemptEnv (Device : Type) where
  scanResult : Option Device
  clientRead : Device → BleLibResult
  deviceAlias : String
  scanMs : ℚ
  connectMs : ℚ
  totalMs : ℚ

/-- Embeds `BluetoothReader._attempt_read`.  The second component records
whether the client/read step was reached (the `RenogyBLEDevice` wrapper and
`RenogyBleClient` are constructed and `read_device` is awaited); when the
scan finds no device the attempt raises the device-not-found error first. -/
def btAttemptRead {Device : Type} (env : BtAttemptEnv Device) :
    Except BtError (List (String × FieldValue)) × Bool :=
  match env.scanResult with
  | none => (.error .deviceNotFound, false)
  | some d =>
    let r := env.clientRead d
    if r.success = false then
      (.error (.readFailed (match r.error with | some m => m | none => "Unknown error")), true)
    else if r.parsedData = [] then
      (.error .emptyData, true)
    else
      (.ok (r.parsedData ++
        [ ("__device", FieldValue.str env.deviceAlias),
          ("__client", FieldValue.str "BluetoothReader"),
          ("__scan_ms", FieldValue.num env.scanMs),
          ("__connect_ms", FieldValue.num env.connectMs),
          ("__total_ms", FieldValue.num env.totalMs) ]), true)

/-! ### Reading normalizer (`reading.py`) -/

/-- Python-dict lookup on an association list (first matching key wins). -/
def lookupField (k : String) : List (String × FieldValue) → Option FieldValue
  | [] => none
  | (k1, v) :: rest => if k1 = k then some v else lookupField k rest

/-- Embeds Python `key.startswith("_")`: the first character is `_`. -/
def startsWithUnderscore (s : String) : Bool :=
  match s.data with
  | [] => false
  | c :: _ => c = '_'

/-- The optional typed fields declared on `SolarReading` in `reading.py`,
in declaration order.  Keys of the raw mapping outside this list are
dropped by the pydantic constructor. -/
def solarFieldNames : List String :=
  [ "model", "device_id",
    "battery_percentage", "battery_voltage", "battery_current",
    "battery_temperature", "battery_type",
    "controller_temperature", "charging_status",
    "load_status", "load_voltage", "load_current", "load_power",
    "pv_voltage", "pv_current", "pv_power",
    "battery_min_voltage_today", "battery_max_voltage_today",
    "max_charging_current_today", "max_discharging_current_today",
    "max_charging_power_today", "max_discharging_power_today",
    "charging_amp_hours_today", "discharging_amp_hours_today",
    "power_generation_today", "power_consumption_today",
    "power_generation_total" ]

/-- Embeds a constructed `SolarReading`: the base `SensorReading` fields
plus the set solar fields (an unset optional field is one whose name has no
entry in `solarFields`). -/
structure SolarReading where
  type : String
  name : String
  readTime : ℚ
  readDurationMs : Option ℚ
  solarFields : List (String × FieldValue)

/-- Embeds `SolarReading.from_raw_data`: drop every key starting with `_`
and the key `"function"`, then keep only keys that are declared
`SolarReading` fields (the pydantic constructor ignores unknown keys);
every declared field without an entry stays unset. -/
def from_raw_data (sensorType nm : String) (data : List (String × FieldValue))
    (readDurationMs : Option ℚ) (readTime : ℚ) : SolarReading :=
  let filtered := data.filter
    (fun kv => !(startsWithUnderscore kv.1) && kv.1 != "function")
  ⟨sensorType, nm, readTime, readDurationMs,
    filtered.filter (fun kv => solarFieldNames.contains kv.1)⟩

/-- Embeds `SolarReading.to_dict` (`model_dump(exclude_none=True)` plus the
`read_time` ISO conversion): the always-present base fields, the optional
`read_duration_ms` when set, then every set solar field in declaration
order. -/
def SolarReading.to_dict (r : SolarReading) : List (String × FieldValue) :=
  [ ("type", FieldValue.str r.type),
    ("name", FieldValue.str r.name),
    ("read_time", FieldValue.num r.readTime) ]
  ++ (match r.readDurationMs with
      | some d => [("read_duration_ms", FieldValue.num d)]
      | none => [])
  ++ solarFieldNames.filterMap (fun f =>
      match lookupField f r.solarFields with
      | some v => some (f, v)
      | none => none)

/-! ### Sensor configuration (`config/renogy_*_sensor_config.py`) -/

/-- Device type enum (`renogy_device_type.py`). -/
inductive DeviceType where
  | controller
  | dcc
  | rover
  | wanderer
deriving DecidableEq, Repr

/-- Embeds `DEFAULT_MAX_RETRIES` from `renogy_defaults.py`. -/
def DEFAULT_MAX_RETRIES : Int := 3

/-- Embeds `RenogyBluetoothSensorConfig`: `max_retries` is a plain pydantic
`int` field with no bound constraint, modelled as an unbounded `Int`. -/
structure RenogyBluetoothSensorConfig where
  name : String
  read_type : String := "bt"
  mac_address : String
  device_alias : String := "BT-2"
  device_type : DeviceType := .controller
  scan_timeout : ℚ := 15
  max_retries : Int := DEFAULT_MAX_RETRIES

/-- Embeds `RenogySerialSensorConfig`: `max_retries` is a plain pydantic
`int` field with no bound constraint, modelled as an unbounded `Int`. -/
structure RenogySerialSensorConfig where
  name : String
  read_type : String := "serial"
  device_path : String := "/dev/ttyUSB0"
  baud_rate : Int := 9600
  slave_address : Int := 1
  device_type : DeviceType := .controller
  max_retries : Int := DEFAULT_MAX_RETRIES

/-! ## Theorems -/

set_option maxRecDepth 10000

/-- Every value of [-127, 127] is hit by `to_signed_8bit` on [0, 255]
(shifted to a bounded search: target `j - 127` for `j < 255`). -/
lemma signed8_onto_aux :
    ∀ j ∈ Finset.range 255, ∃ v ∈ Finset.range 256,
      to_signed_8bit v = (j : Int) - 127 := by decide

/-- Claim C1: `_to_signed_8bit` is total on 8-bit inputs: for every `v` in
[0, 255], if `v & 0x80 != 0` the result is `-(v & 0x7F)`, otherwise the
result is `v`; the result range is exactly [-127, 127]; and
`0x80 ↦ 0`, `0x8B ↦ -11`, `0x28 ↦ 40`, `0xFF ↦ -127`. -/
theorem to_signed_8bit_total :
    (∀ v, v ≤ 255 →
        (v &&& 0x80 ≠ 0 → to_signed_8bit v = -((v &&& 0x7F : Nat) : Int)) ∧
        (v &&& 0x80 = 0 → to_signed_8bit v = (v : Int)) ∧
        -127 ≤ to_signed_8bit v ∧ to_signed_8bit v ≤ 127) ∧
    (∀ r : Int, -127 ≤ r → r ≤ 127 → ∃ v, v ≤ 255 ∧ to_signed_8bit v = r) ∧
    to_signed_8bit 0x80 = 0 ∧ to_signed_8bit 0x8B = -11 ∧
    to_signed_8bit 0x28 = 40 ∧ to_signed_8bit 0xFF = -127 := by
  refine ⟨by decide, ?_, by decide, by decide, by decide, by decide⟩
  intro r h1 h2
  obtain ⟨v, hv, he⟩ :=
    signed8_onto_aux ((r + 127).toNat) (Finset.mem_range.mpr (by omega))
  refine ⟨v, by have := Finset.mem_range.mp hv; omega, ?_⟩
  rw [he]
  omega

/-- Witness for C1 at concrete inputs: `0x8B` decodes to `-11`, and `-55`
is reached from an 8-bit input. -/
theorem to_signed_8bit_total_witness :
    to_signed_8bit 0x8B = -((0x8B &&& 0x7F : Nat) : Int) ∧
    (∃ v, v ≤ 255 ∧ to_signed_8bit v = -55) :=
  ⟨(to_signed_8bit_total.1 0x8B (by decide)).1 (by decide),
   to_signed_8bit_total.2.1 (-55) (by decide) (by decide)⟩

/-- Claim C2: `_parse_temperature_register` decodes any 16-bit value as the
independent pair (decode of high byte, decode of low byte), with the four
documented sample decodes. -/
theorem parse_temperature_register_pairs :
    (∀ raw, raw ≤ 0xFFFF →
        parse_temperature_register raw =
          (to_signed_8bit (raw / 256), to_signed_8bit (raw % 256)) ∧
        (parse_temperature_register raw).1 = to_signed_8bit ((raw >>> 8) &&& 0xFF) ∧
        (parse_temperature_register raw).2 = to_signed_8bit (raw &&& 0xFF)) ∧
    parse_temperature_register 0x198A = (25, -10) ∧
    parse_temperature_register 0x0000 = (0, 0) ∧
    parse_temperature_register 0x7F7F = (127, 127) ∧
    parse_temperature_register 0xFFFF = (-127, -127) := by
  refine ⟨?_, by decide, by decide, by decide, by decide⟩
  intro raw hraw
  have hlow : raw &&& 0xFF = raw % 256 := by
    have h := Nat.and_pow_two_sub_one_eq_mod raw 8
    norm_num at h
    exact h
  have hhigh : (raw >>> 8) &&& 0xFF = raw / 256 := by
    rw [Nat.shiftRight_eq_div_pow]
    have h := Nat.and_pow_two_sub_one_eq_mod (raw / 2 ^ 8) 8
    norm_num at h ⊢
    rw [h]
    omega
  refine ⟨?_, rfl, rfl⟩
  rw [parse_temperature_register, hlow, hhigh]

/-- Witness for C2 at `0x198A`: the byte split is `(25, -10)` via the
arithmetic high/low bytes. -/
theorem parse_temperature_register_pairs_witness :
    parse_temperature_register 0x198A =
      (to_signed_8bit (0x198A / 256), to_signed_8bit (0x198A % 256)) :=
  (parse_temperature_register_pairs.1 0x198A (by decide)).1

/-- Claim C6: the charging-status decode is total: codes 0-6 map through
the fixed table, every other code maps to `"unknown_<code>"`, and the low
byte of the status register value is what gets decoded. -/
theorem charging_status_total :
    (∀ code, 6 < code → chargingStatusTable code = "unknown_" ++ toString code) ∧
    (∀ registerValue,
        chargingStatusOf registerValue = chargingStatusTable (registerValue &&& 0xFF)) ∧
    chargingStatusTable 0 = "deactivated" ∧ chargingStatusTable 1 = "activated" ∧
    chargingStatusTable 2 = "mppt" ∧ chargingStatusTable 3 = "equalizing" ∧
    chargingStatusTable 4 = "boost" ∧ chargingStatusTable 5 = "floating" ∧
    chargingStatusTable 6 = "current_limiting" := by
  refine ⟨?_, fun _ => rfl, rfl, rfl, rfl, rfl, rfl, rfl, rfl⟩
  intro code h
  rw [chargingStatusTable, if_neg (by omega), if_neg (by omega), if_neg (by omega),
    if_neg (by omega), if_neg (by omega), if_neg (by omega), if_neg (by omega)]

/-- Witness for C6 at code 9: an out-of-table code decodes to the
`unknown_` string instead of failing. -/
theorem charging_status_total_witness :
    chargingStatusTable 9 = "unknown_" ++ toString 9 :=
  charging_status_total.1 9 (by decide)

/-- Rounding to 2 decimals is the identity on a natural number of tenths. -/
lemma round2_nat_mul_tenth (n : ℕ) : round2 ((n : ℚ) * (1 / 10)) = (n : ℚ) * (1 / 10) := by
  have h : ((n : ℚ) * (1 / 10)) * 100 = ((n * 10 : ℕ) : ℚ) := by push_cast; ring
  rw [round2, h, round_natCast]
  push_cast
  ring

/-- Rounding to 2 decimals is the identity on a natural number of hundredths. -/
lemma round2_nat_mul_hundredth (n : ℕ) :
    round2 ((n : ℚ) * (1 / 100)) = (n : ℚ) * (1 / 100) := by
  have h : ((n : ℚ) * (1 / 100)) * 100 = ((n : ℕ) : ℚ) := by ring
  rw [round2, h, round_natCast]
  push_cast
  ring

/-- Each static map entry carries scale 1 as a non-float, or scale 1/10 or
1/100 as a float. -/
lemma registerMap_scales :
    ∀ e ∈ REGISTER_MAP,
      (e.scaleIsFloat = true ∧ (e.scale = 1 / 10 ∨ e.scale = 1 / 100)) ∨
      (e.scaleIsFloat = false ∧ e.scale = 1) := by
  intro e he
  fin_cases he <;> norm_num

/-- Claim C5: every register map scale factor is 1, 0.1 or 0.01; a
fractional (float) scale decodes to `round(raw * s, 2)`, which on these
scales equals `raw * s` exactly; scale 1 decodes to `raw` exactly; and a
`battery_voltage` register value of 132 at scale 0.1 decodes to 13.2. -/
theorem register_scale_decode :
    (∀ e ∈ REGISTER_MAP, e.scale = 1 ∨ e.scale = 1 / 10 ∨ e.scale = 1 / 100) ∧
    (∀ e ∈ REGISTER_MAP, ∀ raw : Nat,
        (e.scaleIsFloat = true →
            decodeValue e.scale e.scaleIsFloat raw = round2 ((raw : ℚ) * e.scale) ∧
            decodeValue e.scale e.scaleIsFloat raw = (raw : ℚ) * e.scale) ∧
        (e.scaleIsFloat = false →
            decodeValue e.scale e.scaleIsFloat raw = (raw : ℚ))) ∧
    (∃ e, e ∈ REGISTER_MAP ∧ e.fieldName = "battery_voltage" ∧
        e.scale = 1 / 10 ∧ e.scaleIsFloat = true) ∧
    decodeValue (1 / 10) true 132 = 132 / 10 := by
  refine ⟨?_, ?_, ?_, ?_⟩
  · intro e he
    rcases registerMap_scales e he with ⟨_, h⟩ | ⟨_, h⟩
    · rcases h with h | h
      · exact Or.inr (Or.inl h)
      · exact Or.inr (Or.inr h)
    · exact Or.inl h
  · intro e he raw
    rcases registerMap_scales e he with ⟨hf, hs⟩ | ⟨hf, hs⟩
    · constructor
      · intro _
        constructor
        · rw [decodeValue, hf]
          simp
        · rw [decodeValue, hf]
          simp only [if_true]
          rcases hs with hs | hs
          · rw [hs, round2_nat_mul_tenth]
          · rw [hs, round2_nat_mul_hundredth]
      · intro hcontra
        rw [hf] at hcontra
        cases hcontra
    · constructor
      · intro hcontra
        rw [hf] at hcontra
        cases hcontra
      · intro _
        rw [decodeValue, hf, hs]
        simp
  · exact ⟨⟨0x0101, "battery_voltage", 1 / 10, true, "Battery voltage V"⟩,
      List.Mem.tail _ (List.Mem.head _), rfl, rfl, rfl⟩
  · have h := round2_nat_mul_tenth 132
    rw [decodeValue]
    simp only [if_true]
    norm_num at h ⊢
    rw [h]

/-- Witness for C5 at the `battery_voltage` entry with raw value 132: the
float scale 0.1 decodes to exactly 13.2. -/
theorem register_scale_decode_witness :
    decodeValue (1 / 10) true 132 = (132 : ℚ) * (1 / 10) :=
  ((register_scale_decode.2.1
      ⟨0x0101, "battery_voltage", 1 / 10, true, "Battery voltage V"⟩
      (List.Mem.tail _ (List.Mem.head _)) 132).1 rfl).2

/-- Behaviour of the retry loop when the next `k` attempts fail and the one
after succeeds: the success value is returned after `k + 1` more attempts
with `k` more sleeps. -/
lemma readLoop_succ {Val Err : Type} (outcomes : Nat → Except Err Val) (total : Nat)
    (v : Val) :
    ∀ (k attemptsDone sleeps : Nat) (last : Option Err),
      attemptsDone + k < total →
      (∀ i, i < k → ∃ e, outcomes (attemptsDone + i) = Except.error e) →
      outcomes (attemptsDone + k) = Except.ok v →
      readLoop outcomes total (total - attemptsDone) attemptsDone sleeps last =
        ReadResult.success v (attemptsDone + k + 1) (sleeps + k) := by
  intro k
  induction k with
  | zero =>
    intro done sleeps last hlt _ hok
    obtain ⟨r, hr⟩ : ∃ r, total - done = r + 1 := ⟨total - done - 1, by omega⟩
    rw [hr]
    have hd : outcomes done = Except.ok v := by simpa using hok
    simp [readLoop, hd]
  | succ k ih =>
    intro done sleeps last hlt hfail hok
    obtain ⟨e, he⟩ := hfail 0 (by omega)
    have hd : outcomes done = Except.error e := by simpa using he
    obtain ⟨r, hr⟩ : ∃ r, total - done = r + 1 := ⟨total - done - 1, by omega⟩
    rw [hr]
    have hlt1 : done + 1 < total := by omega
    simp only [readLoop, hd, if_pos hlt1]
    have hr1 : r = total - (done + 1) := by omega
    rw [hr1]
    have step := ih (done + 1) (sleeps + 1) (some e) (by omega)
      (fun i hi => by
        obtain ⟨e1, he1⟩ := hfail (i + 1) (by omega)
        exact ⟨e1, by rw [show done + 1 + i = done + (i + 1) from by omega]; exact he1⟩)
      (by rw [show done + 1 + k = done + (k + 1) from by omega]; exact hok)
    rw [step, show done + 1 + k + 1 = done + (k + 1) + 1 from by omega,
      show sleeps + 1 + k = sleeps + (k + 1) from by omega]

/-- Behaviour of the retry loop when every attempt fails: the loop runs out
of attempts and reports the error of the last attempt, sleeping on every failure
except the final one. -/
lemma readLoop_exhaust {Val Err : Type} (outcomes : Nat → Except Err Val)
    (errs : Nat → Err) (total : Nat)
    (hall : ∀ i, outcomes i = Except.error (errs i)) :
    ∀ (remaining attemptsDone sleeps : Nat) (last : Option Err),
      remaining + attemptsDone = total →
      readLoop outcomes total remaining attemptsDone sleeps last =
        ReadResult.retriesExhausted
          (if remaining = 0 then last else some (errs (total - 1)))
          total (sleeps + (remaining - 1)) := by
  intro remaining
  induction remaining with
  | zero =>
    intro done sleeps last h
    have hd : done = total := by omega
    subst hd
    simp [readLoop]
  | succ r ih =>
    intro done sleeps last h
    have hd : outcomes done = Except.error (errs done) := hall done
    by_cases hlt : done + 1 < total
    · have hr1 : 1 ≤ r := by omega
      simp only [readLoop, hd, if_pos hlt]
      rw [ih (done + 1) (sleeps + 1) (some (errs done)) (by omega)]
      rw [if_neg (by omega : ¬ r = 0), if_neg (by omega : ¬ r + 1 = 0)]
      congr 1
      omega
    · have hr0 : r = 0 := by omega
      subst hr0
      simp only [readLoop, hd, if_neg hlt]
      rw [if_neg (by omega : ¬ (0 : Nat) + 1 = 0)]
      rw [show total - 1 = done from by omega, show total = done + 1 from by omega]
      simp [readLoop]

/-- Claim C3: the retry orchestrator `RenogyReader.read` returns the first
value of the successful attempt after `k + 1` attempts and `k` delay sleeps when
the first `k < max_retries` attempts fail; and when every attempt fails it
makes exactly `max_retries` attempts and raises the terminal exhaustion
error wrapping the error of the final attempt. -/
theorem retry_orchestrator (Val Err : Type) (maxRetries : Int)
    (outcomes : Nat → Except Err Val) (errs : Nat → Err) :
    (∀ (k : Nat) (v : Val), (k : Int) < maxRetries →
        (∀ i, i < k → outcomes i = Except.error (errs i)) →
        outcomes k = Except.ok v →
        renogyRead maxRetries outcomes = ReadResult.success v (k + 1) k) ∧
    (0 < maxRetries →
        (∀ i, outcomes i = Except.error (errs i)) →
        renogyRead maxRetries outcomes =
          ReadResult.retriesExhausted (some (errs (maxRetries.toNat - 1)))
            maxRetries.toNat (maxRetries.toNat - 1)) := by
  constructor
  · intro k v hk hfail hok
    have step := readLoop_succ outcomes maxRetries.toNat v k 0 0 none (by omega)
      (fun i hi => ⟨errs i, by simpa using hfail i hi⟩) (by simpa using hok)
    simpa [renogyRead] using step
  · intro hm hall
    have step := readLoop_exhaust outcomes errs maxRetries.toNat hall
      maxRetries.toNat 0 0 none (by omega)
    rw [if_neg (by omega : ¬ maxRetries.toNat = 0)] at step
    simpa [renogyRead] using step

/-- Witness for C3: with `max_retries = 3` and a reader failing once then
succeeding, `read` returns the value after 2 attempts and 1 sleep. -/
theorem retry_orchestrator_witness :
    renogyRead 3 (fun i => if i = 0 then Except.error "e0" else Except.ok (7 : Nat)) =
      ReadResult.success 7 2 1 :=
  (retry_orchestrator Nat String 3 _ (fun _ => "e0")).1 1 7 (by decide)
    (fun i hi => by
      have h0 : i = 0 := by omega
      subst h0
      rfl)
    rfl

/-- Claim C10: the sensor configurations accept any integer `max_retries`
(no lower bound), and a reader with `max_retries ≤ 0` performs zero
attempts and zero sleeps and still raises the terminal exhaustion error
wrapping a last error of `None`. -/
theorem nonpositive_retries_zero_attempts (Val Err : Type)
    (outcomes : Nat → Except Err Val) :
    (∀ m : Int, ∃ c : RenogySerialSensorConfig, c.max_retries = m) ∧
    (∀ m : Int, ∃ c : RenogyBluetoothSensorConfig, c.max_retries = m) ∧
    (∀ c : RenogySerialSensorConfig, c.max_retries ≤ 0 →
        renogyRead c.max_retries outcomes = ReadResult.retriesExhausted none 0 0) ∧
    (∀ c : RenogyBluetoothSensorConfig, c.max_retries ≤ 0 →
        renogyRead c.max_retries outcomes = ReadResult.retriesExhausted none 0 0) := by
  have key : ∀ m : Int, m ≤ 0 →
      renogyRead m outcomes =
        (ReadResult.retriesExhausted none 0 0 : ReadResult Val Err) := by
    intro m hm
    have h0 : m.toNat = 0 := Int.toNat_of_nonpos hm
    simp [renogyRead, h0, readLoop]
  refine ⟨?_, ?_, ?_, ?_⟩
  · intro m
    exact ⟨⟨"s", "serial", "/dev/ttyUSB0", 9600, 1, DeviceType.controller, m⟩, rfl⟩
  · intro m
    exact ⟨⟨"b", "bt", "AA:BB:CC:DD:EE:FF", "BT-2", DeviceType.controller, 15, m⟩, rfl⟩
  · intro c hc
    exact key c.max_retries hc
  · intro c hc
    exact key c.max_retries hc

/-- Witness for C10: a serial config constructed with `max_retries = -2`
yields zero attempts and the terminal error wrapping `None`. -/
theorem nonpositive_retries_zero_attempts_witness :
    renogyRead
        ((⟨"s", "serial", "/dev/ttyUSB0", 9600, 1, DeviceType.controller,
            -2⟩ : RenogySerialSensorConfig)).max_retries
        (fun _ => Except.error "boom") =
      (ReadResult.retriesExhausted none 0 0 : ReadResult Nat String) :=
  (nonpositive_retries_zero_attempts Nat String _).2.2.1 _ (by decide)

/-- Claim C8: a Bluetooth attempt whose scan finds no device fails with the
device-not-found error and never reaches the client/read step. -/
theorem bluetooth_scan_not_found (Device : Type) (env : BtAttemptEnv Device)
    (h : env.scanResult = none) :
    btAttemptRead env = (Except.error BtError.deviceNotFound, false) := by
  simp [btAttemptRead, h]

/-- Witness for C8: a concrete environment whose scan returns no device. -/
theorem bluetooth_scan_not_found_witness :
    btAttemptRead
        (⟨none, fun _ => ⟨true, none, []⟩, "BT-2", 0, 0, 0⟩ : BtAttemptEnv Unit) =
      (Except.error BtError.deviceNotFound, false) :=
  bluetooth_scan_not_found Unit _ rfl

/-- Counterexample to claim C9: with no adapter and `max_retries = 3`, the
claim predicts 3 attempts before the failure surfaces, but
`BluetoothReader.read` raises the adapter error immediately: zero attempts
run, and the surfaced error is the adapter error, not the exhaustion
error. -/
theorem bluetooth_no_adapter_counterexample :
    (bluetoothRead false 3 (fun _ => Except.error BtError.noAdapter)
        : BtReadOutcome Nat).attemptCount = 0 ∧
    ¬ ((bluetoothRead false 3 (fun _ => Except.error BtError.noAdapter)
        : BtReadOutcome Nat).attemptCount = 3) ∧
    (bluetoothRead false 3 (fun _ => Except.error BtError.noAdapter)
        : BtReadOutcome Nat) = BtReadOutcome.noAdapterError 0 0 := by
  refine ⟨rfl, by decide, rfl⟩

/-- Claim C9 as amended: when the adapter probe reports no adapter, the
read raises the adapter error immediately, before the retry loop: zero
attempts and zero sleeps for every configured `max_retries`. -/
theorem bluetooth_no_adapter_immediate (Val : Type) (maxRetries : Int)
    (outcomes : Nat → Except BtError Val) :
    bluetoothRead false maxRetries outcomes = BtReadOutcome.noAdapterError 0 0 := rfl

/-- Dict lookup distributes over list append. -/
lemma lookupField_append (k : String) (l1 l2 : List (String × FieldValue)) :
    lookupField k (l1 ++ l2) =
      (match lookupField k l1 with
       | some v => some v
       | none => lookupField k l2) := by
  induction l1 with
  | nil => rfl
  | cons kv rest ih =>
    obtain ⟨k1, v⟩ := kv
    by_cases h : k1 = k
    · simp [lookupField, h]
    · simp only [List.cons_append, lookupField, if_neg h]
      exact ih

/-- If every map entry carrying a given field name errors in the
environment, that field name is absent from the register loop output. -/
lemma lookupField_processRegisters (env : ModbusEnv) (f : String) :
    ∀ regs : List RegisterEntry,
      (∀ e ∈ regs, e.fieldName = f → regReadFailed (env.regValue e.addr) = true) →
      lookupField f (processRegisters env regs).1 = none := by
  intro regs
  induction regs with
  | nil => intro _; rfl
  | cons e rest ih =>
    intro hf
    cases hv : env.regValue e.addr with
    | ok raw =>
      have hne : ¬ e.fieldName = f := by
        intro heq
        have hbad := hf e (List.mem_cons_self e rest) heq
        rw [hv] at hbad
        simp [regReadFailed] at hbad
      simp only [processRegisters, hv, lookupField, if_neg hne]
      exact ih (fun e1 he1 h1 => hf e1 (List.mem_cons_of_mem _ he1) h1)
    | error u =>
      simp only [processRegisters, hv]
      exact ih (fun e1 he1 h1 => hf e1 (List.mem_cons_of_mem _ he1) h1)

/-- The register loop error counter counts exactly the errored map
entries. -/
lemma processRegisters_count (env : ModbusEnv) :
    ∀ regs : List RegisterEntry,
      (processRegisters env regs).2 =
        regs.countP (fun e => regReadFailed (env.regValue e.addr)) := by
  intro regs
  induction regs with
  | nil => rfl
  | cons e rest ih =>
    cases hv : env.regValue e.addr with
    | ok raw =>
      simp only [processRegisters, hv, List.countP_cons, regReadFailed, ih, hv]
      simp [regReadFailed, hv]
    | error u =>
      simp only [processRegisters, hv, List.countP_cons, ih]
      simp [regReadFailed, hv]

/-- The field names of the static map are pairwise distinct. -/
lemma registerMap_names_nodup :
    (REGISTER_MAP.map (fun e => e.fieldName)).Nodup := by decide

/-- No static map entry uses one of the field names added separately for
the temperature and status registers. -/
lemma registerMap_names_not_special :
    ∀ e ∈ REGISTER_MAP,
      e.fieldName ≠ "controller_temperature" ∧
      e.fieldName ≠ "battery_temperature" ∧
      e.fieldName ≠ "charging_status" := by
  intro e he
  fin_cases he <;> refine ⟨by decide, by decide, by decide⟩

/-- Claim C4: within one Modbus attempt, a per-register error never aborts
the attempt: the errored field is absent from the output, the error counter
counts exactly the errored registers (plus the temperature register), and
the attempt fails with the no-data error exactly when zero data fields were
read — otherwise it returns the data despite the errors. -/
theorem modbus_register_error_isolation (env : ModbusEnv)
    (hc : env.connectOk = true) :
    (∀ e ∈ REGISTER_MAP, regReadFailed (env.regValue e.addr) = true →
        lookupField e.fieldName (modbusDataFields env).1 = none) ∧
    readErrorCount env =
      REGISTER_MAP.countP (fun e => regReadFailed (env.regValue e.addr)) +
        (if regReadFailed (env.regValue TEMPERATURE_REGISTER) then 1 else 0) ∧
    ((modbusDataFields env).1 = [] →
        readSync env = Except.error ModbusAttemptError.noData) ∧
    ((modbusDataFields env).1 ≠ [] →
        readSync env = Except.ok ((modbusDataFields env).1 ++ modbusMetadata env)) := by
  refine ⟨?_, ?_, ?_, ?_⟩
  · intro e he herr
    have habs : lookupField e.fieldName (processRegisters env REGISTER_MAP).1 = none := by
      apply lookupField_processRegisters
      intro e1 he1 hname
      have heq : e1 = e :=
        List.inj_on_of_nodup_map registerMap_names_nodup he1 he hname
      rw [heq]
      exact herr
    obtain ⟨hn1, hn2, hn3⟩ := registerMap_names_not_special e he
    cases hT : env.regValue TEMPERATURE_REGISTER with
    | ok rawT =>
      cases hS : env.regValue STATUS_REGISTER with
      | ok rawS =>
        simp [modbusDataFields, hT, hS, lookupField_append, habs, lookupField,
          Ne.symm hn1, Ne.symm hn2, Ne.symm hn3]
      | error u =>
        simp [modbusDataFields, hT, hS, lookupField_append, habs, lookupField,
          Ne.symm hn1, Ne.symm hn2]
    | error u =>
      cases hS : env.regValue STATUS_REGISTER with
      | ok rawS =>
        simp [modbusDataFields, hT, hS, lookupField_append, habs, lookupField,
          Ne.symm hn3]
      | error u2 =>
        simp only [modbusDataFields, hT, hS]
        exact habs
  · have hcount := processRegisters_count env REGISTER_MAP
    cases hT : env.regValue TEMPERATURE_REGISTER with
    | ok rawT =>
      cases hS : env.regValue STATUS_REGISTER with
      | ok rawS => simp [readErrorCount, modbusDataFields, hT, hS, hcount, regReadFailed]
      | error u => simp [readErrorCount, modbusDataFields, hT, hS, hcount, regReadFailed]
    | error u =>
      cases hS : env.regValue STATUS_REGISTER with
      | ok rawS => simp [readErrorCount, modbusDataFields, hT, hS, hcount, regReadFailed]
      | error u2 => simp [readErrorCount, modbusDataFields, hT, hS, hcount, regReadFailed]
  · intro hempty
    simp [readSync, hc, hempty, modbusMetadata]
  · intro hne
    have hlen : 1 ≤ (modbusDataFields env).1.length := by
      cases hfs : (modbusDataFields env).1 with
      | nil => exact absurd hfs hne
      | cons a rest => simp
    simp only [readSync, hc]
    rw [if_neg (by simp),
      if_neg (by
        simp only [List.length_append, modbusMetadata, List.length_cons, List.length_nil]
        omega)]

/-- Witness for C4: with every register erroring, the attempt yields zero
data fields and fails with the no-data error. -/
theorem modbus_register_error_isolation_witness :
    readSync envAllError = Except.error ModbusAttemptError.noData :=
  (modbus_register_error_isolation envAllError rfl).2.2.1 rfl

/-- Filtering an association list cannot introduce a key. -/
lemma lookupField_filter_none (k : String) (p : String × FieldValue → Bool) :
    ∀ l, lookupField k l = none → lookupField k (l.filter p) = none := by
  intro l
  induction l with
  | nil => intro _; rfl
  | cons kv rest ih =>
    obtain ⟨k1, v⟩ := kv
    intro h
    by_cases hk : k1 = k
    · rw [lookupField, if_pos hk] at h
      cases h
    · rw [lookupField, if_neg hk] at h
      rw [List.filter_cons]
      by_cases hp : p (k1, v)
      · rw [if_pos hp, lookupField, if_neg hk]
        exact ih h
      · rw [if_neg hp]
        exact ih h

/-- The serialized solar-field section of `to_dict` has no entry for a
field that is unset on the reading. -/
lemma lookupField_dump_unset (fields : List (String × FieldValue)) (k : String)
    (h : lookupField k fields = none) :
    ∀ names : List String,
      lookupField k (names.filterMap (fun f =>
        match lookupField f fields with
        | some v => some (f, v)
        | none => none)) = none := by
  intro names
  induction names with
  | nil => rfl
  | cons n rest ih =>
    rw [List.filterMap_cons]
    cases hn : lookupField n fields with
    | none =>
      simp only [hn]
      exact ih
    | some v =>
      simp only [hn]
      have hne : ¬ n = k := by
        intro he
        rw [he, h] at hn
        cases hn
      rw [lookupField, if_neg hne]
      exact ih

/-- The serialized solar-field section of `to_dict` has no entry for a key
outside the declared field-name list. -/
lemma lookupField_dump_not_mem (fields : List (String × FieldValue)) (k : String) :
    ∀ names : List String, k ∉ names →
      lookupField k (names.filterMap (fun f =>
        match lookupField f fields with
        | some v => some (f, v)
        | none => none)) = none := by
  intro names
  induction names with
  | nil => intro _; rfl
  | cons n rest ih =>
    intro hk
    rw [List.filterMap_cons]
    have hne : ¬ n = k := fun he => hk (he ▸ List.mem_cons_self n rest)
    cases hn : lookupField n fields with
    | none =>
      simp only [hn]
      exact ih (fun hm => hk (List.mem_cons_of_mem _ hm))
    | some v =>
      simp only [hn]
      rw [lookupField, if_neg hne]
      exact ih (fun hm => hk (List.mem_cons_of_mem _ hm))

/-- The `read_duration_ms` section of `to_dict` has no entry for any other
key. -/
lemma lookupField_duration_section (dur : Option ℚ) (k : String)
    (h : ¬ "read_duration_ms" = k) :
    lookupField k (match dur with
      | some d => [("read_duration_ms", FieldValue.num d)]
      | none => ([] : List (String × FieldValue))) = none := by
  cases dur with
  | none => rfl
  | some d => simp [lookupField, h]

/-- Serialization has no entry for a key that is none of the base field names
and misses both the duration section and the solar-field section. -/
lemma to_dict_lookup_none (r : SolarReading) (k : String)
    (h1 : ¬ "type" = k) (h2 : ¬ "name" = k) (h3 : ¬ "read_time" = k)
    (hdur : lookupField k (match r.readDurationMs with
      | some d => [("read_duration_ms", FieldValue.num d)]
      | none => ([] : List (String × FieldValue))) = none)
    (hdump : lookupField k (solarFieldNames.filterMap (fun f =>
      match lookupField f r.solarFields with
      | some v => some (f, v)
      | none => none)) = none) :
    lookupField k r.to_dict = none := by
  rw [SolarReading.to_dict, lookupField_append, lookupField_append]
  simp only [lookupField, if_neg h1, if_neg h2, if_neg h3]
  rw [hdur]
  exact hdump

/-- No declared solar field name collides with a base `SensorReading` field
name. -/
lemma solarFieldNames_base_disjoint :
    ∀ f ∈ solarFieldNames,
      ¬ "type" = f ∧ ¬ "name" = f ∧ ¬ "read_time" = f ∧
      ¬ "read_duration_ms" = f := by decide

/-- No declared solar field name starts with an underscore, and
`read_duration_ms` is not a declared solar field name. -/
lemma solarFieldNames_no_underscore :
    (∀ f ∈ solarFieldNames, startsWithUnderscore f = false) ∧
    "read_duration_ms" ∉ solarFieldNames := by decide

/-- Claim C7: the normalizer leaves every field absent from the raw data
unset; serialization excludes every unset optional field and every
transport-internal metadata key (all keys with the underscore metadata
prefix), for any raw mapping from any transport. -/
theorem normalizer_unset_and_metadata (sensorType nm : String) (readTime : ℚ)
    (dur : Option ℚ) (data : List (String × FieldValue)) :
    (∀ f, lookupField f data = none →
        lookupField f (from_raw_data sensorType nm data dur readTime).solarFields = none) ∧
    (∀ f, f ∈ solarFieldNames →
        lookupField f (from_raw_data sensorType nm data dur readTime).solarFields = none →
        lookupField f (from_raw_data sensorType nm data dur readTime).to_dict = none) ∧
    (dur = none →
        lookupField "read_duration_ms"
          (from_raw_data sensorType nm data dur readTime).to_dict = none) ∧
    (∀ k, startsWithUnderscore k = true →
        lookupField k (from_raw_data sensorType nm data dur readTime).to_dict = none) := by
  refine ⟨?_, ?_, ?_, ?_⟩
  · intro f hf
    simp only [from_raw_data]
    exact lookupField_filter_none _ _ _ (lookupField_filter_none _ _ _ hf)
  · intro f hmem hunset
    obtain ⟨h1, h2, h3, h4⟩ := solarFieldNames_base_disjoint f hmem
    refine to_dict_lookup_none _ f h1 h2 h3 ?_ ?_
    · exact lookupField_duration_section _ f h4
    · exact lookupField_dump_unset _ f hunset solarFieldNames
  · intro hd
    subst hd
    obtain ⟨h1, h2, h3⟩ :
        ¬ "type" = "read_duration_ms" ∧ ¬ "name" = "read_duration_ms" ∧
        ¬ "read_time" = "read_duration_ms" := by decide
    refine to_dict_lookup_none _ _ h1 h2 h3 ?_ ?_
    · rfl
    · exact lookupField_dump_not_mem _ _ solarFieldNames
        solarFieldNames_no_underscore.2
  · intro k hk
    have h1 : ¬ "type" = k := by
      intro he
      rw [← he] at hk
      cases hk
    have h2 : ¬ "name" = k := by
      intro he
      rw [← he] at hk
      cases hk
    have h3 : ¬ "read_time" = k := by
      intro he
      rw [← he] at hk
      cases hk
    have h4 : ¬ "read_duration_ms" = k := by
      intro he
      rw [← he] at hk
      cases hk
    have hnm : k ∉ solarFieldNames := by
      intro hm
      have hfal := solarFieldNames_no_underscore.1 k hm
      rw [hk] at hfal
      cases hfal
    refine to_dict_lookup_none _ k h1 h2 h3 ?_ ?_
    · exact lookupField_duration_section _ k h4
    · exact lookupField_dump_not_mem _ k solarFieldNames hnm

/-- Witness for C7: a raw Modbus-like mapping with one data field and one
metadata key: the unread `pv_power` stays unset, and `__device` is excluded
from the serialized output. -/
theorem normalizer_unset_and_metadata_witness :
    lookupField "pv_power"
      (from_raw_data "solar" "dev"
        [("battery_voltage", FieldValue.num 13), ("__device", FieldValue.str "d")]
        none 0).solarFields = none ∧
    lookupField "__device"
      (from_raw_data "solar" "dev"
        [("battery_voltage", FieldValue.num 13), ("__device", FieldValue.str "d")]
        none 0).to_dict = none :=
  ⟨(normalizer_unset_and_metadata "solar" "dev" 0 none
      [("battery_voltage", FieldValue.num 13), ("__device", FieldValue.str "d")]).1
      "pv_power" rfl,
   (normalizer_unset_and_metadata "solar" "dev" 0 none
      [("battery_voltage", FieldValue.num 13), ("__device", FieldValue.str "d")]).2.2.2
      "__device" rfl⟩

end PiSolar
